import Mathlib

/-!
Shallow embedding of the documentation-hub MCP server
(`src/index.ts`): the three-stage classification pipeline
`determineDomain`, `extractTopics`, `constructSpecificUrl`, and the
`fetch-documentation` tool handler built on top of them.

Strings are modelled as Lean `String` / `List Char`.  JavaScript
`toLowerCase` is modelled by `Char.toLower` (exact on the ASCII inputs
the server works with).  The regular expressions appearing in the
source are each of a simple fixed shape (literal substring, literal
with word boundaries, two literals separated by optional whitespace,
or an alternation of those), so they are embedded by a small pattern
datatype `Pat` together with an exact matcher.
-/

namespace DocHub

/-- The double-quote character, written numerically. -/
def dq : Char := Char.ofNat 34

/-- The single-quote (apostrophe) character, written numerically. -/
def sq : Char := Char.ofNat 39

/-- JavaScript word character (`\w`): ASCII letter, digit or underscore. -/
def isWordChar (c : Char) : Bool := c.isAlpha || c.isDigit || c == Char.ofNat 95

/-- Whitespace as matched by the `\s` regex class (ASCII part). -/
def isSpaceJS (c : Char) : Bool :=
  c == ' ' || c == Char.ofNat 9 || c == Char.ofNat 10 || c == Char.ofNat 13 ||
  c == Char.ofNat 11 || c == Char.ofNat 12

/-- Lowercasing of a character list, modelling `String.prototype.toLowerCase`. -/
def toLowerChars (s : List Char) : List Char := s.map Char.toLower

/-- Substring containment, modelling `String.prototype.includes`. -/
def isSubstr (needle : List Char) : List Char → Bool
  | [] => needle.isEmpty
  | c :: t => needle.isPrefixOf (c :: t) || isSubstr needle t

/-- Keyword lists of the `react-docs` domain (from `determineDomain`). -/
def reactKeywords : List String := ["react", "component", "jsx", "hook", "props", "state"]

/-- Keyword lists of the `node-docs` domain (from `determineDomain`). -/
def nodeKeywords : List String := ["node", "express", "npm", "package", "module", "require"]

/-- Keyword lists of the `python-docs` domain (from `determineDomain`). -/
def pythonKeywords : List String := ["python", "pip", "django", "flask", "pandas", "numpy"]

/-- The `domainKeywords` table of `determineDomain`, in object-literal
insertion order (the order `Object.entries` iterates). -/
def domainKeywords : List (String × List String) :=
  [("react-docs", reactKeywords), ("node-docs", nodeKeywords), ("python-docs", pythonKeywords)]

/-- `keywords.reduce((count, keyword) => count + (queryLower.includes(keyword) ? 1 : 0), 0)`. -/
def keywordScore (queryLower : List Char) (keywords : List String) : Nat :=
  keywords.foldl (fun count k => count + (if isSubstr k.data queryLower then 1 else 0)) 0

/-- `determineDomain` from `src/index.ts`: score each domain by keyword
containment, keep the first domain with the strictly highest score,
fall back to `general` when the highest score is `0`. -/
def determineDomain (query : String) : String :=
  let queryLower := toLowerChars query.data
  let scores := domainKeywords.map (fun p => (p.1, keywordScore queryLower p.2))
  let best := scores.foldl (fun best p => if p.2 > best.2 then p else best) ("general", 0)
  if best.2 > 0 then best.1 else "general"

/-- Score of the `react-docs` keyword set on a query. -/
def reactScore (query : String) : Nat := keywordScore (toLowerChars query.data) reactKeywords

/-- Score of the `node-docs` keyword set on a query. -/
def nodeScore (query : String) : Nat := keywordScore (toLowerChars query.data) nodeKeywords

/-- Score of the `python-docs` keyword set on a query. -/
def pythonScore (query : String) : Nat := keywordScore (toLowerChars query.data) pythonKeywords

/-- The highest of the three domain scores on a query. -/
def topScore (query : String) : Nat :=
  max (reactScore query) (max (nodeScore query) (pythonScore query))

/-- Unfolded form of `determineDomain`: the fold over the three literal
score entries, written out. -/
theorem determineDomain_eq (query : String) :
    determineDomain query =
      (let s1 := if reactScore query > 0 then ("react-docs", reactScore query)
                 else (("general" : String), (0 : Nat))
       let s2 := if nodeScore query > s1.2 then ("node-docs", nodeScore query) else s1
       let s3 := if pythonScore query > s2.2 then ("python-docs", pythonScore query) else s2
       if s3.2 > 0 then s3.1 else "general") := rfl

/-! ### Topic patterns

Every regex in `extractTopics` is an alternation of three shapes:
a plain literal, a literal with `\b` on one or both sides, or two
literals separated by `\s*`. -/

/-- Embedded shape of the topic-pattern regexes of `extractTopics`. -/
inductive Pat where
  | lit (w : List Char)
  | litWB (w : List Char)
  | litEndWB (w : List Char)
  | gap (a b : List Char)
  | alt (p q : Pat)

/-- Word-character test on an optional character; the edges of the
string count as non-word positions. -/
def isWordOpt : Option Char → Bool
  | none => false
  | some c => isWordChar c

/-- Word boundary (`\b`) between two adjacent positions. -/
def wbAt (l r : Option Char) : Bool := isWordOpt l != isWordOpt r

/-- Does the pattern match starting exactly at the head of `s`, with
`prev` the character right before that position? -/
def testAt (prev : Option Char) : Pat → List Char → Bool
  | .lit w, s => w.isPrefixOf s
  | .litWB w, s =>
      w.isPrefixOf s && wbAt prev s.head? && wbAt w.getLast? (s.drop w.length).head?
  | .litEndWB w, s => w.isPrefixOf s && wbAt w.getLast? (s.drop w.length).head?
  | .gap a b, s => a.isPrefixOf s && b.isPrefixOf ((s.drop a.length).dropWhile isSpaceJS)
  | .alt p q, s => testAt prev p s || testAt prev q s

/-- Scan all start positions, tracking the previous character. -/
def scanPat (p : Pat) : Option Char → List Char → Bool
  | prev, [] => testAt prev p []
  | prev, c :: cs => testAt prev p (c :: cs) || scanPat p (some c) cs

/-- `pattern.test(queryLower)`: does the pattern match anywhere? -/
def testPat (p : Pat) (s : List Char) : Bool := scanPat p none s

/-- Topic patterns of `react-docs`, in object-literal order. -/
def reactPatterns : List (String × Pat) :=
  [("useState", .gap "use".data "state".data),
   ("useEffect", .gap "use".data "effect".data),
   ("useContext", .gap "use".data "context".data),
   ("useReducer", .gap "use".data "reducer".data),
   ("useCallback", .gap "use".data "callback".data),
   ("useMemo", .gap "use".data "memo".data),
   ("useRef", .gap "use".data "ref".data),
   ("components", .lit "component".data),
   ("props", .lit "props".data),
   ("state", .litEndWB "state".data),
   ("jsx", .lit "jsx".data),
   ("rendering", .lit "render".data),
   ("events", .lit "event".data)]

/-- Topic patterns of `node-docs`, in object-literal order. -/
def nodePatterns : List (String × Pat) :=
  [("fs", .alt (.litWB "fs".data) (.gap "file".data "system".data)),
   ("http", .alt (.litWB "http".data) (.litWB "server".data)),
   ("path", .litWB "path".data),
   ("buffer", .litWB "buffer".data),
   ("stream", .litWB "stream".data),
   ("events", .litWB "events".data),
   ("modules", .alt (.litWB "module".data) (.alt (.litWB "require".data) (.litWB "import".data))),
   ("npm", .alt (.litWB "npm".data) (.litWB "package".data)),
   ("express", .litWB "express".data),
   ("process", .litWB "process".data)]

/-- Topic patterns of `python-docs`, in object-literal order. -/
def pythonPatterns : List (String × Pat) :=
  [("list", .alt (.litWB "list".data) (.litWB "lists".data)),
   ("dict", .alt (.litWB "dict".data) (.alt (.litWB "dictionary".data) (.litWB "dictionaries".data))),
   ("tuple", .alt (.litWB "tuple".data) (.litWB "tuples".data)),
   ("set", .alt (.litWB "set".data) (.litWB "sets".data)),
   ("string", .alt (.litWB "string".data) (.litWB "str".data)),
   ("file", .alt (.litWB "file".data)
      (.alt (.litWB "open".data) (.alt (.litWB "read".data) (.litWB "write".data)))),
   ("class", .alt (.litWB "class".data) (.alt (.litWB "object".data) (.litWB "inheritance".data))),
   ("function", .alt (.litWB "function".data) (.litWB "def".data)),
   ("module", .alt (.litWB "module".data) (.litWB "import".data)),
   ("pandas", .alt (.litWB "pandas".data) (.alt (.litWB "pd".data) (.litWB "dataframe".data))),
   ("numpy", .alt (.litWB "numpy".data) (.alt (.litWB "np".data) (.litWB "array".data))),
   ("django", .litWB "django".data),
   ("flask", .litWB "flask".data)]

/-- The `topicPatterns` table lookup: unknown domains have no patterns. -/
def topicPatterns (domain : String) : List (String × Pat) :=
  if domain = "react-docs" then reactPatterns
  else if domain = "node-docs" then nodePatterns
  else if domain = "python-docs" then pythonPatterns
  else []

/-! ### Quoted-term extraction

The regex is `/"([^"]+)"|'([^']+)'/g` run over the original query; to
have a structurally recursive scanner we thread a fuel argument that
starts at the length of the input, which is always enough. -/

/-- Try to match `q([^q]+)q` at the very start of the input; on success
return the full match (quotes included) and the remaining input. -/
def tryQuote (q : Char) : List Char → Option (List Char × List Char)
  | [] => none
  | c :: cs =>
    if c = q then
      let body := cs.takeWhile (fun x => x ≠ q)
      match cs.dropWhile (fun x => x ≠ q) with
      | [] => none
      | _ :: rest => if body.isEmpty then none else some ((q :: body) ++ [q], rest)
    else none

/-- Left-to-right global scan for `/"([^"]+)"|'([^']+)'/g`: at each
position the double-quote branch is tried first, matches do not
overlap, and scanning resumes right after each match. -/
def findQuotedAux : Nat → List Char → List (List Char)
  | 0, _ => []
  | _ + 1, [] => []
  | fuel + 1, c :: cs =>
    match tryQuote dq (c :: cs) with
    | some (m, rest) => m :: findQuotedAux fuel rest
    | none =>
      match tryQuote sq (c :: cs) with
      | some (m, rest) => m :: findQuotedAux fuel rest
      | none => findQuotedAux fuel cs

/-- All matches of the quoted-term regex over a character list. -/
def findQuoted (s : List Char) : List (List Char) := findQuotedAux s.length s

/-- Is the character one of the two quote characters (the class `['"]`)? -/
def isQuoteChar (c : Char) : Bool := c = dq || c = sq

/-- `extractTopics` from `src/index.ts`: push the label of every
domain pattern matching the lowercased query, then push every quoted
term (all quote characters deleted) whose remaining length exceeds 2. -/
def extractTopics (query : String) (domain : String) : List String :=
  let queryLower := toLowerChars query.data
  let patTopics := (topicPatterns domain).foldl
    (fun acc tp => if testPat tp.2 queryLower then acc ++ [tp.1] else acc) []
  (findQuoted query.data).foldl
    (fun acc term =>
      let cleanTerm := term.filter (fun c => !(isQuoteChar c))
      if cleanTerm.length > 2 then acc ++ [String.mk cleanTerm] else acc)
    patTopics

/-- Spec-shaped description of the domain-pattern part of the topic
list: the labels of the matching patterns, in declaration order. -/
def patternTopicsOf (query domain : String) : List String :=
  ((topicPatterns domain).filter (fun tp => testPat tp.2 (toLowerChars query.data))).map
    (fun tp => tp.1)

/-- Spec-shaped description of the quoted part of the topic list:
every quoted match, quote characters deleted, kept when longer than 2
characters, in match order. -/
def quotedTopicsOf (query : String) : List String :=
  ((findQuoted query.data).map (fun m => String.mk (m.filter (fun c => !(isQuoteChar c))))).filter
    (fun t => t.length > 2)

/-! ### URL construction -/

/-- The `reactHooks` list of `constructSpecificUrl`. -/
def reactHooks : List String :=
  ["useState", "useEffect", "useContext", "useReducer", "useCallback", "useMemo", "useRef"]

/-- The Python standard-library topics sharing one templated URL. -/
def pythonStdTopics : List String := ["list", "dict", "tuple", "set", "string"]

/-- `constructSpecificUrl` from `src/index.ts`: `null` on an empty
topic list, otherwise dispatch on the domain and map the first topic
through that domain's rule chain; unknown domains yield `null`. -/
def constructSpecificUrl (domain : String) (topics : List String) : Option String :=
  match topics with
  | [] => none
  | mainTopic :: _ =>
    if domain = "react-docs" then
      if reactHooks.contains mainTopic then
        some ("https://react.dev/reference/react/" ++ mainTopic)
      else if mainTopic = "components" then some "https://react.dev/learn/your-first-component"
      else if mainTopic = "props" then some "https://react.dev/learn/passing-props-to-a-component"
      else if mainTopic = "state" then some "https://react.dev/learn/state-a-components-memory"
      else if mainTopic = "jsx" then some "https://react.dev/learn/writing-markup-with-jsx"
      else if mainTopic = "events" then some "https://react.dev/learn/responding-to-events"
      else if mainTopic = "rendering" then some "https://react.dev/learn/render-and-commit"
      else none
    else if domain = "node-docs" then
      if mainTopic = "fs" then some "https://nodejs.org/api/fs.html"
      else if mainTopic = "http" then some "https://nodejs.org/api/http.html"
      else if mainTopic = "path" then some "https://nodejs.org/api/path.html"
      else if mainTopic = "buffer" then some "https://nodejs.org/api/buffer.html"
      else if mainTopic = "stream" then some "https://nodejs.org/api/stream.html"
      else if mainTopic = "events" then some "https://nodejs.org/api/events.html"
      else if mainTopic = "modules" then some "https://nodejs.org/api/modules.html"
      else if mainTopic = "process" then some "https://nodejs.org/api/process.html"
      else if mainTopic = "npm" then some "https://docs.npmjs.com/"
      else if mainTopic = "express" then some "https://expressjs.com/en/api.html"
      else none
    else if domain = "python-docs" then
      if pythonStdTopics.contains mainTopic then
        some ("https://docs.python.org/3/library/stdtypes.html#" ++ mainTopic ++ "s")
      else if mainTopic = "file" then
        some "https://docs.python.org/3/tutorial/inputoutput.html#reading-and-writing-files"
      else if mainTopic = "class" then some "https://docs.python.org/3/tutorial/classes.html"
      else if mainTopic = "function" then
        some "https://docs.python.org/3/tutorial/controlflow.html#defining-functions"
      else if mainTopic = "module" then some "https://docs.python.org/3/tutorial/modules.html"
      else if mainTopic = "pandas" then some "https://pandas.pydata.org/docs/user_guide/index.html"
      else if mainTopic = "numpy" then some "https://numpy.org/doc/stable/user/index.html"
      else if mainTopic = "django" then some "https://docs.djangoproject.com/en/stable/"
      else if mainTopic = "flask" then some "https://flask.palletsprojects.com/en/latest/"
      else none
    else none

/-! ### The fetch-documentation tool handler

The external HTTP collaborator is an oracle `fetch : String → String`
mapping a URL to page text (in the source it never throws: failures
are caught and turned into a fixed string).  Timestamps are external
and not modelled.  The resource registry has exactly the four keys of
`serverConfig.capabilities.resources`. -/

/-- Result shape of a resource handler (content plus source URL). -/
structure ResourceResult where
  content : String
  source : String

/-- The keys of `serverConfig.capabilities.resources`. -/
def knownDomains : List String := ["react-docs", "node-docs", "python-docs", "general"]

/-- Property names a plain object literal inherits from
`Object.prototype` (the standard eleven methods plus the `__proto__`
accessor).  For these names `resources[domain]` is a truthy inherited
value, so the `!resources[domain]` guard does not fire and the later
call of the missing `resource.handler` throws a TypeError instead. -/
def protoKeys : List String :=
  ["constructor", "toString", "toLocaleString", "valueOf", "hasOwnProperty",
   "isPrototypeOf", "propertyIsEnumerable", "__proto__",
   "__defineGetter__", "__defineSetter__", "__lookupGetter__", "__lookupSetter__"]

/-- The per-domain resource handlers.  `specificUrl || baseUrl`
treats the empty string as absent, mirroring JavaScript falsiness;
the `general` handler demands a URL and otherwise answers with a
fixed message. -/
def resourceHandler (fetch : String → String) (domain : String) (url : Option String) :
    ResourceResult :=
  let orBase := fun (base : String) =>
    match url with
    | some u => if u = "" then base else u
    | none => base
  if domain = "react-docs" then
    let t := orBase "https://react.dev/reference/react"
    ⟨fetch t, t⟩
  else if domain = "node-docs" then
    let t := orBase "https://nodejs.org/en/docs"
    ⟨fetch t, t⟩
  else if domain = "python-docs" then
    let t := orBase "https://docs.python.org/3/"
    ⟨fetch t, t⟩
  else if domain = "general" then
    match url with
    | none => ⟨"Please provide a specific URL for general documentation queries.", "none"⟩
    | some u =>
      if u = "" then ⟨"Please provide a specific URL for general documentation queries.", "none"⟩
      else ⟨fetch u, u⟩
  else ⟨"", ""⟩

/-- The two response shapes of the `fetch-documentation` tool: the
normal return object, and the object built in the `catch` block
(which has an `error` field and no `specificUrl`/`source`). -/
inductive FetchDocResponse where
  | ok (domain : String) (topics : List String) (specificUrl : Option String)
       (content : String) (source : String)
  | err (domain : String) (topics : List String) (content : String) (error : String)

/-- The `topics` field of either response shape. -/
def FetchDocResponse.topicsField : FetchDocResponse → List String
  | .ok _ t _ _ _ => t
  | .err _ t _ _ => t

/-- The `domain` field of either response shape. -/
def FetchDocResponse.domainField : FetchDocResponse → String
  | .ok d _ _ _ _ => d
  | .err d _ _ _ => d

/-- Whether the response is the normal shape (no `error` field). -/
def FetchDocResponse.isOk : FetchDocResponse → Bool
  | .ok _ _ _ _ _ => true
  | .err _ _ _ _ => false

/-- `specifiedDomain || determineDomain(query)`: the empty string is
falsy, so it falls through to the inferred domain. -/
def resolveDomainArg (query : String) : Option String → String
  | some d => if d = "" then determineDomain query else d
  | none => determineDomain query

/-- Body of the `fetch-documentation` handler after the domain has
been resolved: extract topics, build the specific URL, then look the
domain up in the resource registry.  A configured key runs that
resource's handler.  Otherwise the `catch` branch is taken, with two
ways in: a name inherited from `Object.prototype` passes the
`!resources[domain]` guard but makes `resource.handler(...)` throw a
TypeError, while any other name fails the guard and throws the
`Unknown domain` error; the response carries `String(error)` of
whichever was thrown. -/
def runForDomain (fetch : String → String) (query domain : String) : FetchDocResponse :=
  let topics := extractTopics query domain
  let specificUrl := constructSpecificUrl domain topics
  if knownDomains.contains domain then
    let result := resourceHandler fetch domain specificUrl
    .ok domain (if topics.length > 0 then topics else ["general"]) specificUrl
      result.content result.source
  else if protoKeys.contains domain then
    .err domain topics "Error fetching documentation for this domain."
      "TypeError: resource.handler is not a function"
  else
    .err domain topics "Error fetching documentation for this domain."
      ("Error: Unknown domain: " ++ domain)

/-- The `fetch-documentation` tool handler. -/
def fetchDocumentationTool (fetch : String → String) (query : String)
    (specifiedDomain : Option String) : FetchDocResponse :=
  runForDomain fetch query (resolveDomainArg query specifiedDomain)

/-! ### Helper lemmas -/

/-- Pushing through a fold is filtering and mapping (Bool condition). -/
theorem foldl_pushIf {α β : Type} (f : α → Bool) (g : α → β) (xs : List α) :
    ∀ acc : List β,
      xs.foldl (fun acc x => if f x then acc ++ [g x] else acc) acc
        = acc ++ (xs.filter f).map g := by
  induction xs with
  | nil => intro acc; simp
  | cons x xs ih =>
    intro acc
    cases hf : f x with
    | false => simp [List.foldl_cons, hf, ih, List.filter_cons]
    | true => simp [List.foldl_cons, hf, ih, List.filter_cons]

/-- Pushing through a fold is filtering and mapping (decidable
propositional condition). -/
theorem foldl_pushIfP {α β : Type} (p : α → Prop) [DecidablePred p] (g : α → β) (xs : List α) :
    ∀ acc : List β,
      xs.foldl (fun acc x => if p x then acc ++ [g x] else acc) acc
        = acc ++ (xs.filter (fun x => decide (p x))).map g := by
  induction xs with
  | nil => intro acc; simp
  | cons x xs ih =>
    intro acc
    by_cases hp : p x
    · simp [List.foldl_cons, hp, ih, List.filter_cons]
    · simp [List.foldl_cons, hp, ih, List.filter_cons]

/-- The extracted topic list is the matching pattern labels followed
by the surviving quoted terms. -/
theorem extractTopics_eq (query domain : String) :
    extractTopics query domain = patternTopicsOf query domain ++ quotedTopicsOf query := by
  unfold extractTopics patternTopicsOf quotedTopicsOf
  dsimp only
  rw [foldl_pushIf (fun tp => testPat tp.2 (toLowerChars query.data)) (fun tp => tp.1)
        (topicPatterns domain) []]
  rw [foldl_pushIfP (fun term => (term.filter (fun c => !(isQuoteChar c))).length > 2)
        (fun term => String.mk (term.filter (fun c => !(isQuoteChar c)))) (findQuoted query.data)]
  rw [List.filter_map]
  rfl

/-- The head surviving `dropWhile` is a member that fails the test. -/
theorem dropWhile_head_mem {p : Char → Bool} :
    ∀ {cs rest : List Char} {r : Char}, cs.dropWhile p = r :: rest → r ∈ cs ∧ p r = false := by
  intro cs
  induction cs with
  | nil => intro rest r h; simp [List.dropWhile] at h
  | cons a as ih =>
    intro rest r h
    rw [List.dropWhile_cons] at h
    by_cases hp : p a
    · simp only [hp, if_true] at h
      rcases ih h with ⟨hmem, hfalse⟩
      exact ⟨List.mem_cons_of_mem a hmem, hfalse⟩
    · simp only [hp, if_false] at h
      cases h
      exact ⟨List.mem_cons_self a as, by simpa using hp⟩

/-- A successful `tryQuote` means the opening character is the quote
and a closing copy of it occurs later. -/
theorem tryQuote_some {q c : Char} {cs m rest : List Char}
    (h : tryQuote q (c :: cs) = some (m, rest)) : c = q ∧ q ∈ cs := by
  simp only [tryQuote] at h
  by_cases hc : c = q
  · refine ⟨hc, ?_⟩
    simp only [hc, if_true] at h
    rcases hd : cs.dropWhile (fun x => decide (x ≠ q)) with _ | ⟨r, rest2⟩
    · rw [hd] at h; exact absurd h (by simp)
    · rcases dropWhile_head_mem hd with ⟨hmem, hr⟩
      have : r = q := by simpa using hr
      exact this ▸ hmem
  · rw [if_neg hc] at h; exact absurd h (by simp)

/-- With at most one quote character in the input, the quoted-term
scan finds nothing. -/
theorem findQuotedAux_nil_of_few :
    ∀ (fuel : Nat) (s : List Char), s.countP isQuoteChar ≤ 1 → findQuotedAux fuel s = [] := by
  intro fuel
  induction fuel with
  | zero => intro s _; rfl
  | succ n ih =>
    intro s hs
    match s with
    | [] => rfl
    | c :: cs =>
      rw [List.countP_cons] at hs
      have hcs : cs.countP isQuoteChar ≤ 1 := le_trans (Nat.le_add_right _ _) hs
      rcases hdq : tryQuote dq (c :: cs) with _ | ⟨m, rest⟩
      · rcases hsq : tryQuote sq (c :: cs) with _ | ⟨m, rest⟩
        · simp only [findQuotedAux, hdq, hsq]
          exact ih cs hcs
        · exfalso
          rcases tryQuote_some hsq with ⟨hc, hmem⟩
          have h1 : isQuoteChar c = true := by simp [isQuoteChar, hc]
          have h2 : 0 < cs.countP isQuoteChar :=
            List.countP_pos_iff.mpr ⟨sq, hmem, by simp [isQuoteChar]⟩
          rw [h1] at hs
          simp only [if_true] at hs
          omega
      · exfalso
        rcases tryQuote_some hdq with ⟨hc, hmem⟩
        have h1 : isQuoteChar c = true := by simp [isQuoteChar, hc]
        have h2 : 0 < cs.countP isQuoteChar :=
          List.countP_pos_iff.mpr ⟨dq, hmem, by simp [isQuoteChar]⟩
        rw [h1] at hs
        simp only [if_true] at hs
        omega

/-- Keyword score is zero when no keyword is contained in the query. -/
theorem keywordScore_eq_zero {l : List Char} :
    ∀ {ks : List String}, (∀ k ∈ ks, isSubstr k.data l = false) → keywordScore l ks = 0 := by
  intro ks
  induction ks with
  | nil => intro _; rfl
  | cons k ks ih =>
    intro h
    unfold keywordScore at *
    rw [List.foldl_cons, h k (List.mem_cons_self k ks)]
    simpa using ih (fun k2 hk2 => h k2 (List.mem_cons_of_mem k hk2))

/-- With at most one quote character, there are no quoted topics. -/
theorem quotedTopicsOf_nil_of_few {query : String} (h : query.data.countP isQuoteChar ≤ 1) :
    findQuoted query.data = [] ∧ quotedTopicsOf query = [] := by
  have hf : findQuoted query.data = [] := findQuotedAux_nil_of_few _ _ h
  exact ⟨hf, by simp [quotedTopicsOf, hf]⟩

/-! ### Concrete queries used by the claims -/

/-- Scenario-1 query. -/
def queryUseState : String := "How do I use useState hook in React?"

/-- Scenario-4 query (apostrophe written numerically). -/
def queryNodePython : String :=
  "What" ++ String.mk [sq] ++ "s the difference between Node.js and Python?"

/-- A query with a double-quoted term containing an apostrophe. -/
def queryDonT : String :=
  String.mk ("say ".data ++ [dq] ++ "don".data ++ [sq] ++ "t".data ++ [dq])

/-- A query whose two contraction apostrophes pair up as quotes. -/
def queryContractions : String :=
  String.mk ("don".data ++ [sq] ++ "t use Python".data ++ [sq] ++ "s list".data)

/-! ### Claim theorems -/

/-- C1, counterexample: contrary to the claim, the topic label
`state` IS extracted from the scenario-1 query, because in
`useState hook` the substring `state` is followed by a space, which
satisfies the trailing word boundary of the regex. -/
theorem C1_counterexample :
    "state" ∈ extractTopics queryUseState "react-docs" := by decide

/-- C1, amended: for the query `How do I use useState hook in React?`
the domain is `react-docs`, the topics are exactly `useState` followed
by `state` (both patterns match), and the resolved URL is the
`useState` reference page, since `useState` is the first topic. -/
theorem C1_scenario1_amended :
    determineDomain queryUseState = "react-docs" ∧
    extractTopics queryUseState "react-docs" = ["useState", "state"] ∧
    constructSpecificUrl "react-docs" (extractTopics queryUseState "react-docs")
      = some "https://react.dev/reference/react/useState" :=
  ⟨by decide, by decide, by decide⟩

/-- C2, counterexample: for the query `say "don;t"` (with an
apostrophe in place of the semicolon) the appended term is `dont`:
the interior apostrophe is deleted, not preserved, contradicting the
claim that only the surrounding quote characters are stripped. -/
theorem C2_counterexample :
    extractTopics queryDonT "general" = [String.mk "dont".data] ∧
    String.mk "dont".data ≠ String.mk ("don".data ++ [sq] ++ "t".data) :=
  ⟨by decide, by decide⟩

/-- C2, amended: the topic term appended for a quoted match equals
that match with ALL quote characters (of either kind, surrounding or
interior) deleted; all non-quote characters are preserved in order. -/
theorem C2_quote_stripping_amended (query domain : String) :
    (extractTopics query domain).drop (patternTopicsOf query domain).length
      = ((findQuoted query.data).map
          (fun m => String.mk (m.filter (fun c => !(isQuoteChar c))))).filter
          (fun t => t.length > 2) := by
  rw [extractTopics_eq, List.drop_left]
  rfl

/-- C6: `constructSpecificUrl` returns `none` on an empty topic list
for every domain, and returns `none` unconditionally for every domain
outside the three with URL rules. -/
theorem C6_resolveUrl_null_cases (domain : String) (topics : List String) :
    (topics = [] → constructSpecificUrl domain topics = none) ∧
    (domain ∉ (["react-docs", "node-docs", "python-docs"] : List String) →
      constructSpecificUrl domain topics = none) := by
  constructor
  · intro h; subst h; rfl
  · intro h
    have h1 : ¬ domain = "react-docs" := fun hh => h (by simp [hh])
    have h2 : ¬ domain = "node-docs" := fun hh => h (by simp [hh])
    have h3 : ¬ domain = "python-docs" := fun hh => h (by simp [hh])
    cases topics with
    | nil => rfl
    | cons t ts => simp [constructSpecificUrl, h1, h2, h3]

/-- C6, witness at concrete inputs. -/
theorem C6_resolveUrl_witness :
    constructSpecificUrl "general" ([] : List String) = none ∧
    constructSpecificUrl "general" ["useState"] = none :=
  ⟨(C6_resolveUrl_null_cases "general" []).1 rfl,
   (C6_resolveUrl_null_cases "general" ["useState"]).2 (by decide)⟩

/-- C7: `constructSpecificUrl` depends only on the first topic: on
two non-empty topic lists with the same head it returns the same
result, so later topics are never consulted. -/
theorem C7_url_first_topic_only (domain t : String) (ts ts2 : List String) :
    constructSpecificUrl domain (t :: ts) = constructSpecificUrl domain (t :: ts2) := rfl

/-- C8: the extracted topic list is the matching pattern labels (in
declaration order) followed by the quoted terms (in query order,
casing preserved, no deduplication), keeping exactly the quoted terms
whose quote-stripped form is longer than 2 characters; concretely,
a quoted `ab` is dropped while `abc`, `xyz` and `AbC` are kept. -/
theorem C8_quoted_terms_shape :
    (∀ query domain : String,
      extractTopics query domain = patternTopicsOf query domain ++ quotedTopicsOf query) ∧
    extractTopics (String.mk ("see ".data ++ [sq] ++ "ab".data ++ [sq])) "general" = [] ∧
    extractTopics (String.mk ("see ".data ++ [sq] ++ "abc".data ++ [sq])) "general" = ["abc"] ∧
    extractTopics (String.mk ("see ".data ++ [dq] ++ "xyz".data ++ [dq])) "general" = ["xyz"] ∧
    extractTopics (String.mk ("see ".data ++ [dq] ++ "AbC".data ++ [dq])) "general" = ["AbC"] :=
  ⟨extractTopics_eq, by decide, by decide, by decide, by decide⟩

/-- C10: a query with exactly one quote character yields no quoted
match at all (so the topic list is exactly the pattern labels for
every domain), while the two contraction apostrophes of
`don;t use Python;s list` (apostrophes for the semicolons) pair up
and produce the spurious quoted topic `t use Python`. -/
theorem C10_quote_pairing (query : String)
    (h : query.data.countP isQuoteChar = 1) :
    (findQuoted query.data = [] ∧
     ∀ domain : String, extractTopics query domain = patternTopicsOf query domain) ∧
    extractTopics queryContractions "general" = ["t use Python"] := by
  have hf : findQuoted query.data = [] := findQuotedAux_nil_of_few _ _ (by omega)
  refine ⟨⟨hf, fun domain => ?_⟩, by decide⟩
  rw [extractTopics_eq]
  rw [show quotedTopicsOf query = [] from by simp [quotedTopicsOf, hf]]
  simp

/-- C10, witness: a query with a single apostrophe. -/
theorem C10_quote_pairing_witness :
    (String.mk ("it".data ++ [sq] ++ "s fine".data)).data.countP isQuoteChar = 1 ∧
    findQuoted (String.mk ("it".data ++ [sq] ++ "s fine".data)).data = [] :=
  ⟨by decide, ((C10_quote_pairing (String.mk ("it".data ++ [sq] ++ "s fine".data))
      (by decide)).1).1⟩

/-- C3, counterexample: invoking the tool with query `hello` and the
explicit unknown domain `bogus` takes the catch branch, whose response
carries the raw extracted topic list — here empty, not `["general"]`. -/
theorem C3_counterexample :
    extractTopics "hello" "bogus" = [] ∧
    (fetchDocumentationTool (fun _ => "page") "hello" (some "bogus")).topicsField = [] ∧
    ([] : List String) ≠ ["general"] :=
  ⟨by decide, by decide, by decide⟩

/-- C3, amended: in the success shape (the response without an error
field) the topics field is the extracted list when non-empty and
`["general"]` when empty, hence never empty; only the catch-branch
response can carry an empty topics list. -/
theorem C3_topics_nonempty_amended (fetch : String → String) (query : String)
    (specifiedDomain : Option String)
    (h : (fetchDocumentationTool fetch query specifiedDomain).isOk = true) :
    (fetchDocumentationTool fetch query specifiedDomain).topicsField ≠ [] := by
  unfold fetchDocumentationTool at h ⊢
  generalize resolveDomainArg query specifiedDomain = d at h ⊢
  unfold runForDomain at h ⊢
  by_cases hc : knownDomains.contains d = true
  · rw [hc] at h ⊢
    simp only [if_true] at h ⊢
    dsimp only [FetchDocResponse.topicsField]
    cases hT : extractTopics query d with
    | nil => simp [hT]
    | cons a l => simp [hT]
  · rw [Bool.not_eq_true] at hc
    rw [hc] at h
    cases hp : protoKeys.contains d with
    | false => rw [hp] at h; simp [FetchDocResponse.isOk] at h
    | true => rw [hp] at h; simp [FetchDocResponse.isOk] at h







/-- C3, witness: a successful invocation with an empty extracted
list, whose topics field is the non-empty `["general"]`. -/
theorem C3_topics_nonempty_witness :
    (fetchDocumentationTool (fun _ => "page") "hello" none).isOk = true ∧
    (fetchDocumentationTool (fun _ => "page") "hello" none).topicsField ≠ [] :=
  ⟨by decide, C3_topics_nonempty_amended (fun _ => "page") "hello" none (by decide)⟩

/-- C4, counterexample: on a query matching no keyword all three
domains tie for the highest score (zero), yet `determineDomain`
returns `general`, not the first-enumerated domain `react-docs`;
the claim as stated quantifies over every tie, including this one. -/
theorem C4_counterexample :
    reactScore "zzz" = 0 ∧ nodeScore "zzz" = 0 ∧ pythonScore "zzz" = 0 ∧
    determineDomain "zzz" = "general" ∧ determineDomain "zzz" ≠ "react-docs" :=
  ⟨by decide, by decide, by decide, by decide, by decide⟩

/-- C4, amended: whenever the highest keyword score is positive, the
first domain (in the order react-docs, node-docs, python-docs)
attaining it wins; in particular on the scenario-4 query both
node-docs and python-docs score at least 1 and node-docs is returned. -/
theorem C4_first_wins_amended :
    (∀ query : String, 0 < topScore query →
      determineDomain query =
        (if reactScore query = topScore query then "react-docs"
         else if nodeScore query = topScore query then "node-docs"
         else "python-docs")) ∧
    (1 ≤ nodeScore queryNodePython ∧ 1 ≤ pythonScore queryNodePython ∧
     determineDomain queryNodePython = "node-docs") := by
  constructor
  · intro query h
    have hr : reactScore query ≤ topScore query := by unfold topScore; omega
    have hn : nodeScore query ≤ topScore query := by unfold topScore; omega
    have hp : pythonScore query ≤ topScore query := by unfold topScore; omega
    have hone : reactScore query = topScore query ∨ nodeScore query = topScore query ∨
        pythonScore query = topScore query := by unfold topScore; omega
    rw [determineDomain_eq]
    dsimp only
    split_ifs <;> first | rfl | (exfalso; omega)
  · exact ⟨by decide, by decide, by decide⟩

/-- C4, witness: the universal part applied at the query `react`. -/
theorem C4_first_wins_witness :
    0 < topScore "react" ∧
    determineDomain "react" =
      (if reactScore "react" = topScore "react" then "react-docs"
       else if nodeScore "react" = topScore "react" then "node-docs"
       else "python-docs") :=
  ⟨by decide, C4_first_wins_amended.1 "react" (by decide)⟩

/-- C5: `classify` is total — it always returns one of the four
enumerated domains — and on any query containing no configured
keyword of any domain it returns `general`. -/
theorem C5_total_and_general (query : String) :
    (determineDomain query = "react-docs" ∨ determineDomain query = "node-docs" ∨
     determineDomain query = "python-docs" ∨ determineDomain query = "general") ∧
    ((∀ p ∈ domainKeywords, ∀ k ∈ p.2, isSubstr k.data (toLowerChars query.data) = false) →
      determineDomain query = "general") := by
  constructor
  · rw [determineDomain_eq]
    dsimp only
    split_ifs <;> simp
  · intro h
    have hr : reactScore query = 0 :=
      keywordScore_eq_zero
        (fun k hk => h ("react-docs", reactKeywords) (by simp [domainKeywords]) k hk)
    have hn : nodeScore query = 0 :=
      keywordScore_eq_zero
        (fun k hk => h ("node-docs", nodeKeywords) (by simp [domainKeywords]) k hk)
    have hp : pythonScore query = 0 :=
      keywordScore_eq_zero
        (fun k hk => h ("python-docs", pythonKeywords) (by simp [domainKeywords]) k hk)
    rw [determineDomain_eq]
    dsimp only
    simp [hr, hn, hp]

/-- C5, witness: the scenario-5 query contains no keywords and is
classified `general`. -/
theorem C5_total_and_general_witness :
    (∀ p ∈ domainKeywords, ∀ k ∈ p.2,
      isSubstr k.data (toLowerChars ("Best practices for file handling").data) = false) ∧
    determineDomain "Best practices for file handling" = "general" :=
  ⟨by decide, (C5_total_and_general "Best practices for file handling").2 (by decide)⟩

/-- C9, counterexample: the empty string, explicitly supplied, is not
a configured domain, yet because it is falsy the handler silently
falls back to the inferred domain and can answer with a success
response whose domain is not the supplied one and which has no error
field. -/
theorem C9_counterexample :
    knownDomains.contains "" = false ∧
    (fetchDocumentationTool (fun _ => "page") "hello" (some "")).isOk = true ∧
    (fetchDocumentationTool (fun _ => "page") "hello" (some "")).domainField = "general" :=
  ⟨by decide, by decide, by decide⟩

/-- C9, amended: for every NON-EMPTY explicitly supplied domain that
is not one of the configured resource domains, the handler catches
the thrown error and returns the catch-branch response, which carries
the supplied domain and an error field; no exception escapes (the
handler is a total function of its inputs).  The error field is the
Unknown-domain message, except when the supplied name is inherited
from `Object.prototype`, in which case the registry lookup is truthy
and the error is the TypeError from invoking the missing handler. -/
theorem C9_unknown_domain_amended (fetch : String → String) (query domain : String)
    (h1 : domain ≠ "") (h2 : knownDomains.contains domain = false) :
    (fetchDocumentationTool fetch query (some domain)).isOk = false ∧
    (fetchDocumentationTool fetch query (some domain)).domainField = domain ∧
    fetchDocumentationTool fetch query (some domain)
      = .err domain (extractTopics query domain)
          "Error fetching documentation for this domain."
          (if protoKeys.contains domain then
            "TypeError: resource.handler is not a function"
          else "Error: Unknown domain: " ++ domain) := by
  have hd : resolveDomainArg query (some domain) = domain := by
    simp [resolveDomainArg, h1]
  unfold fetchDocumentationTool
  rw [hd]
  unfold runForDomain
  rw [h2]
  cases hp : protoKeys.contains domain with
  | false => simp [FetchDocResponse.isOk, FetchDocResponse.domainField]
  | true => simp [FetchDocResponse.isOk, FetchDocResponse.domainField]

/-- C9, witness at the unknown domains `bogus` (Unknown-domain error)
and `toString` (prototype-chain TypeError). -/
theorem C9_unknown_domain_witness :
    ((fetchDocumentationTool (fun _ => "page") "hi" (some "bogus")).isOk = false ∧
     (fetchDocumentationTool (fun _ => "page") "hi" (some "bogus")).domainField = "bogus" ∧
     fetchDocumentationTool (fun _ => "page") "hi" (some "bogus")
       = .err "bogus" (extractTopics "hi" "bogus")
           "Error fetching documentation for this domain."
           (if protoKeys.contains "bogus" then
             "TypeError: resource.handler is not a function"
           else "Error: Unknown domain: " ++ "bogus")) ∧
    ((fetchDocumentationTool (fun _ => "page") "hi" (some "toString")).isOk = false ∧
     (fetchDocumentationTool (fun _ => "page") "hi" (some "toString")).domainField = "toString" ∧
     fetchDocumentationTool (fun _ => "page") "hi" (some "toString")
       = .err "toString" (extractTopics "hi" "toString")
           "Error fetching documentation for this domain."
           (if protoKeys.contains "toString" then
             "TypeError: resource.handler is not a function"
           else "Error: Unknown domain: " ++ "toString")) :=
  ⟨C9_unknown_domain_amended (fun _ => "page") "hi" "bogus" (by decide) (by decide),
   C9_unknown_domain_amended (fun _ => "page") "hi" "toString" (by decide) (by decide)⟩

end DocHub
